import Mathlib

/-!
Shallow embedding of the parallel extraction-match-compare orchestration
engine of `src/streamlit_app_parallel.py` (functions
`extract_systems_from_contract`, `compare_system_pair`,
`run_parallel_analysis`, its inner `process_comparison_task`, and
`_manual_field_comparison`).

Records are Python dicts mapping attribute names to string values (the
extraction JSON schema declares every property as a string); we model them
as association lists with the usual unique-key dict semantics.  The two
external OpenAI calls are modelled as abstract fallible functions
(`extract`, `oracle`): the engine consumes them only through their
success-or-error outcome.  The Phase-2 thread pool is modelled by an
arbitrary completion-order schedule `sched` (a permutation of the task
list) that may depend on the worker count, plus a per-task outcome that
may be an uncaught exception (`Except.error`), exactly as the
`as_completed` drain loop sees it.
-/

namespace KYC

/-- A Python dict of string attributes, as produced by the extraction
JSON schema (all values are strings).  Keys are unique in dicts parsed
from JSON. -/
abbrev Record := List (String × String)

/-- `r.get(k, d)` on a Python dict. -/
def rgetD (r : Record) (k d : String) : String :=
  (r.lookup k).getD d

/-- `sys.get("System Name", "")` — the match key used by the engine. -/
def sysName (s : Record) : String :=
  rgetD s "System Name" ""

/-- `{sys.get("System Name", ""): sys for sys in systems}.get(k)` — the
lookup in the per-side name map; a dict comprehension is last-write-wins,
so the last record in response order with the given name is returned. -/
def mapLookup (systems : List Record) (k : String) : Option Record :=
  (systems.filter fun s => sysName s == k).getLast?

/-- `k in {sys.get("System Name", ""): sys for sys in systems}` —
membership in the per-side name map. -/
def mapMem (systems : List Record) (k : String) : Bool :=
  systems.any fun s => sysName s == k

/-- One entry of the `field_differences` array. -/
structure FieldDiff where
  field_name : String
  value_a : String
  value_b : String
  analysis : String
deriving DecidableEq, Repr

/-- One comparison-result dict.  The dict returned by a successful
`compare_system_pair` call is drawn from the comparison JSON schema, where
`config_a` / `config_b` may be null or absent (consumers read them with
`.get`, so absent and null coincide as `none`). -/
structure CompResult where
  system_name : String
  status : String
  config_a : Option Record
  config_b : Option Record
  field_differences : List FieldDiff
  system_analysis : String
deriving DecidableEq, Repr

/-- One `(status, system_a, system_b)` tuple of `comparison_tasks`. -/
structure Task where
  status : String
  system_a : Option Record
  system_b : Option Record
deriving DecidableEq, Repr

/-- The dict returned by `run_parallel_analysis`. -/
structure AnalysisReport where
  systems_config_a : List Record
  systems_config_b : List Record
  systems_comparison : List CompResult
deriving DecidableEq, Repr

/-- Python truthiness of an optional dict: `None` and the empty dict are
falsy. -/
def truthy : Option Record → Bool
  | none => false
  | some r => !r.isEmpty

/-- The `field_order` list of `_manual_field_comparison`. -/
def field_order : List String :=
  ["Amount", "Service", "Database", "Tier-Name", "Tier Type", "RAM",
   "No. of add HANA nodes", "No. of Standby nodes", "Storage Information",
   "OS", "SLA", "DR", "Add HW for DR", "Pacemaker Included", "Phase", "Server"]

/-- The per-field analysis text of the fallback. -/
def diff_analysis (f va vb : String) : String :=
  "Field \x27" ++ f ++ "\x27 changed from \x27" ++ va ++ "\x27 to \x27" ++ vb ++ "\x27."

/-- `_manual_field_comparison(system_a, system_b)`: for each field of
`field_order` in order, read both values with default "N/A" and emit a
difference entry when they differ. -/
def manual_field_comparison (system_a system_b : Record) : List FieldDiff :=
  field_order.filterMap fun field =>
    let value_a := rgetD system_a field "N/A"
    let value_b := rgetD system_b field "N/A"
    if value_a != value_b then
      some (FieldDiff.mk field value_a value_b (diff_analysis field value_a value_b))
    else
      none

/-- The `system_analysis` text substituted on a comparison failure. -/
def fallback_analysis (e : String) : String :=
  "Comparison completed with fallback method. Error: " ++ e

/-- The `system_analysis` text of a `missing_in_b` result. -/
def missing_analysis (n : String) : String :=
  "System \x27" ++ n ++ "\x27 exists in Version A but is missing in Version B."

/-- The `system_analysis` text of a `new_in_b` result. -/
def new_analysis (n : String) : String :=
  "System \x27" ++ n ++ "\x27 is new in Version B (not present in Version A)."

/-- `process_comparison_task(task)`: guarded by Python truthiness of the
payload records.  For a matched task the external comparison `oracle` is
tried; on success its dict is returned with `status` overwritten to
"matched", on any exception the deterministic local fallback dict is
built.  An unhandled tag/payload shape falls through to `return None`. -/
def process_comparison_task
    (oracle : Record → Record → Except String CompResult) (t : Task) :
    Option CompResult :=
  if t.status == "matched" && truthy t.system_a && truthy t.system_b then
    match t.system_a, t.system_b with
    | some system_a, some system_b =>
      match oracle system_a system_b with
      | Except.ok result => some { result with status := "matched" }
      | Except.error e =>
          some { system_name := rgetD system_a "System Name" ""
                 status := "matched"
                 config_a := some system_a
                 config_b := some system_b
                 field_differences := manual_field_comparison system_a system_b
                 system_analysis := fallback_analysis e }
    | _, _ => none
  else if t.status == "missing_in_b" && truthy t.system_a then
    match t.system_a with
    | some system_a =>
        some { system_name := rgetD system_a "System Name" ""
               status := "missing_in_b"
               config_a := some system_a
               config_b := none
               field_differences := []
               system_analysis := missing_analysis (rgetD system_a "System Name" "") }
    | none => none
  else if t.status == "new_in_b" && truthy t.system_b then
    match t.system_b with
    | some system_b =>
        some { system_name := rgetD system_b "System Name" ""
               status := "new_in_b"
               config_a := none
               config_b := some system_b
               field_differences := []
               system_analysis := new_analysis (rgetD system_b "System Name" "") }
    | none => none
  else
    none

/-- The body of the loop `for system_a in systems_config_a`: look the name
up in `systems_b_map`; `if system_b:` is Python truthiness, so a found but
empty dict also yields a `missing_in_b` task. -/
def matchTaskForA (systems_config_b : List Record) (system_a : Record) : Task :=
  match mapLookup systems_config_b (sysName system_a) with
  | some system_b =>
      if system_b.isEmpty then ⟨"missing_in_b", some system_a, none⟩
      else ⟨"matched", some system_a, some system_b⟩
  | none => ⟨"missing_in_b", some system_a, none⟩

/-- The two task-building loops of `run_parallel_analysis`: one task per
element of `systems_config_a` (the list, not the deduplicated map), then
one `new_in_b` task per element of `systems_config_b` whose name is not a
key of `systems_a_map`. -/
def buildTasks (systems_config_a systems_config_b : List Record) : List Task :=
  systems_config_a.map (matchTaskForA systems_config_b) ++
    ((systems_config_b.filter fun system_b =>
        !mapMem systems_config_a (sysName system_b)).map
      fun system_b => ⟨"new_in_b", none, some system_b⟩)

/-- The `st.warning` text emitted when a task raises. -/
def warn_msg (e : String) : String :=
  "Error processing system comparison: " ++ e

/-- The `as_completed` drain loop: each future's outcome is either a value
(`result`, appended when truthy, i.e. `some`) or an exception (turned into
a warning); the loop never aborts. -/
def gather (outcomes : List (Except String (Option CompResult))) :
    List CompResult × List String :=
  outcomes.foldl
    (fun acc o =>
      match o with
      | Except.ok (some result) => (acc.1 ++ [result], acc.2)
      | Except.ok none => acc
      | Except.error e => (acc.1, acc.2 ++ [warn_msg e]))
    ([], [])

/-- What one outcome contributes to `systems_comparison`. -/
def collect_ok : Except String (Option CompResult) → Option CompResult
  | Except.ok r => r
  | Except.error _ => none

/-- What one outcome contributes to the warning channel. -/
def collect_err : Except String (Option CompResult) → Option String
  | Except.error e => some (warn_msg e)
  | Except.ok _ => none

/-- `ThreadPoolExecutor(max_workers=max_workers)` at the Phase-2 pool: the
caller-supplied worker count is passed through unmodified. -/
def phase2_max_workers (max_workers : Nat) : Nat :=
  max_workers

/-- Task execution when `process_comparison_task` itself raises nothing
(the case for well-typed records): the future's outcome is its value. -/
def pure_exec (oracle : Record → Record → Except String CompResult) :
    Task → Except String (Option CompResult) :=
  fun t => Except.ok (process_comparison_task oracle t)

/-- `run_parallel_analysis`: Phase 1 runs the two extractions and joins —
if either raises, that exception propagates and nothing further runs;
Phase 2 builds the tasks, submits them to a pool bounded by
`phase2_max_workers max_workers`, drains them in completion order
(`sched`, an arbitrary permutation chosen by the scheduler, possibly
depending on the worker count) and gathers results and warnings. -/
def run_parallel_analysis
    (extract : String → String → Except String (List Record))
    (exec : Task → Except String (Option CompResult))
    (contract_a contract_b : String)
    (max_workers : Nat)
    (sched : Nat → List Task → List Task) :
    Except String (AnalysisReport × List String) :=
  match extract contract_a "Version A" with
  | Except.error e => Except.error e
  | Except.ok systems_config_a =>
    match extract contract_b "Version B" with
    | Except.error e => Except.error e
    | Except.ok systems_config_b =>
      let comparison_tasks := buildTasks systems_config_a systems_config_b
      let completed := sched (phase2_max_workers max_workers) comparison_tasks
      let gathered := gather (completed.map exec)
      Except.ok (⟨systems_config_a, systems_config_b, gathered.1⟩, gathered.2)

/-- Modelled from the spec (§4.4/§6): the clamping of `maxWorkers` to the
configured bounds [2,10] that the spec requires of the entry point; stated
here only to compare with what the code does (`phase2_max_workers`). -/
def clamp_spec (max_workers : Nat) : Nat :=
  max 2 (min max_workers 10)

/-- The match key a task was built for (the name of its payload record);
used only to state theorems about the task set. -/
def taskKey (t : Task) : String :=
  match t.system_a, t.system_b with
  | some a, _ => sysName a
  | none, some b => sysName b
  | none, none => ""

/-- The disjunction of the three guards of `process_comparison_task`: a
task of any other shape falls through to `return None`. -/
def task_handled (t : Task) : Bool :=
  (t.status == "matched" && truthy t.system_a && truthy t.system_b) ||
  (t.status == "missing_in_b" && truthy t.system_a) ||
  (t.status == "new_in_b" && truthy t.system_b)

/-! ### Helper lemmas -/

/-- The drain loop is a pure fold: starting from any accumulator it appends
the ok-`some` results to the first component and the warnings of the
exceptions to the second. -/
lemma gather_foldl (l : List (Except String (Option CompResult)))
    (acc : List CompResult × List String) :
    l.foldl
      (fun acc o =>
        match o with
        | Except.ok (some result) => (acc.1 ++ [result], acc.2)
        | Except.ok none => acc
        | Except.error e => (acc.1, acc.2 ++ [warn_msg e]))
      acc
    = (acc.1 ++ l.filterMap collect_ok, acc.2 ++ l.filterMap collect_err) := by
  induction l generalizing acc with
  | nil => simp
  | cons o tl ih =>
    match o with
    | Except.ok (some result) =>
        simp [List.foldl_cons, ih, collect_ok, collect_err]
    | Except.ok none =>
        simp [List.foldl_cons, ih, collect_ok, collect_err]
    | Except.error e =>
        simp [List.foldl_cons, ih, collect_ok, collect_err]

/-- `gather` partitions the outcomes into collected results and warnings. -/
lemma gather_eq (l : List (Except String (Option CompResult))) :
    gather l = (l.filterMap collect_ok, l.filterMap collect_err) := by
  simpa [gather] using gather_foldl l ([], [])

/-- Every task built from an element of side A carries that record as its
`system_a` payload. -/
lemma matchTaskForA_system_a (sb : List Record) (a : Record) :
    (matchTaskForA sb a).system_a = some a := by
  unfold matchTaskForA
  cases mapLookup sb (sysName a) with
  | none => rfl
  | some b => by_cases h : b.isEmpty <;> simp [h]

/-- The key of a task built from an element of side A is that record's
name. -/
lemma taskKey_matchTaskForA (sb : List Record) (a : Record) :
    taskKey (matchTaskForA sb a) = sysName a := by
  unfold taskKey
  rw [matchTaskForA_system_a]

/-- Map membership agrees with membership of the name list. -/
lemma mapMem_iff (systems : List Record) (k : String) :
    mapMem systems k = true ↔ k ∈ systems.map sysName := by
  simp only [mapMem, List.any_eq_true, List.mem_map, beq_iff_eq]

/-- A record found in the name map is a member of the list it was built
from. -/
lemma mapLookup_mem {systems : List Record} {k : String} {b : Record}
    (h : mapLookup systems k = some b) : b ∈ systems :=
  List.mem_of_mem_filter (List.mem_of_mem_getLast? h)

/-- The task list keyed by match key: one key per element of side A, then
the names of side B not present in side A's map. -/
lemma buildTasks_map_taskKey (sa sb : List Record) :
    (buildTasks sa sb).map taskKey
      = sa.map sysName ++ ((sb.map sysName).filter fun k => !mapMem sa k) := by
  unfold buildTasks
  rw [List.map_append, List.map_map, List.map_map]
  congr 1
  · exact List.map_congr_left fun a _ => taskKey_matchTaskForA sb a
  · calc (sb.filter fun system_b => !mapMem sa (sysName system_b)).map
            (taskKey ∘ fun system_b => ⟨"new_in_b", none, some system_b⟩)
        = (sb.filter fun system_b => !mapMem sa (sysName system_b)).map sysName := by
          exact List.map_congr_left fun b _ => rfl
      _ = (sb.map sysName).filter fun k => !mapMem sa k := by
          rw [List.filter_map]
          rfl

/-- A non-empty dict is truthy. -/
lemma truthy_some {r : Record} (h : r ≠ []) : truthy (some r) = true := by
  cases r with
  | nil => exact absurd rfl h
  | cons x xs => rfl

/-- A dict whose `isEmpty` test is false is not the empty dict. -/
lemma ne_nil_of_isEmpty_false {r : Record} (h : r.isEmpty = false) : r ≠ [] := by
  intro hnil
  rw [hnil] at h
  exact absurd h (by simp)

/-- Evaluation of `process_comparison_task` on a `missing_in_b` task with
a truthy payload. -/
lemma process_missing_eq (oracle : Record → Record → Except String CompResult)
    (a : Record) (h : a ≠ []) :
    process_comparison_task oracle ⟨"missing_in_b", some a, none⟩ =
      some ⟨rgetD a "System Name" "", "missing_in_b", some a, none, [],
            missing_analysis (rgetD a "System Name" "")⟩ := by
  simp [process_comparison_task, truthy_some h]

/-- Evaluation of `process_comparison_task` on a `new_in_b` task with a
truthy payload. -/
lemma process_new_eq (oracle : Record → Record → Except String CompResult)
    (b : Record) (h : b ≠ []) :
    process_comparison_task oracle ⟨"new_in_b", none, some b⟩ =
      some ⟨rgetD b "System Name" "", "new_in_b", none, some b, [],
            new_analysis (rgetD b "System Name" "")⟩ := by
  simp [process_comparison_task, truthy_some h]

/-- Evaluation of `process_comparison_task` on a matched task when the
external comparison succeeds: the service's dict, with `status`
overwritten. -/
lemma process_matched_eq_ok (oracle : Record → Record → Except String CompResult)
    (a b : Record) (r : CompResult) (ha : a ≠ []) (hb : b ≠ [])
    (h : oracle a b = Except.ok r) :
    process_comparison_task oracle ⟨"matched", some a, some b⟩ =
      some { r with status := "matched" } := by
  simp [process_comparison_task, truthy_some ha, truthy_some hb, h]

/-- Evaluation of `process_comparison_task` on a matched task when the
external comparison fails: the deterministic fallback dict. -/
lemma process_matched_eq_fallback (oracle : Record → Record → Except String CompResult)
    (a b : Record) (e : String) (ha : a ≠ []) (hb : b ≠ [])
    (h : oracle a b = Except.error e) :
    process_comparison_task oracle ⟨"matched", some a, some b⟩ =
      some ⟨rgetD a "System Name" "", "matched", some a, some b,
            manual_field_comparison a b, fallback_analysis e⟩ := by
  simp [process_comparison_task, truthy_some ha, truthy_some hb, h]

/-- The two shapes a side-A task can take. -/
lemma matchTaskForA_eq (sb : List Record) (a : Record) :
    (∃ b, mapLookup sb (sysName a) = some b ∧ b.isEmpty = false ∧
          matchTaskForA sb a = ⟨"matched", some a, some b⟩) ∨
    matchTaskForA sb a = ⟨"missing_in_b", some a, none⟩ := by
  unfold matchTaskForA
  cases h : mapLookup sb (sysName a) with
  | none => exact Or.inr rfl
  | some b =>
    by_cases hb : b.isEmpty
    · exact Or.inr (by simp [hb])
    · exact Or.inl ⟨b, rfl, by simp [hb], by simp [hb]⟩

/-- Shape of membership in the built task list. -/
lemma mem_buildTasks {sa sb : List Record} {t : Task} (ht : t ∈ buildTasks sa sb) :
    (∃ a ∈ sa, t = matchTaskForA sb a) ∨
    (∃ b ∈ sb, mapMem sa (sysName b) = false ∧ t = ⟨"new_in_b", none, some b⟩) := by
  unfold buildTasks at ht
  rcases List.mem_append.mp ht with h | h
  · obtain ⟨a, ha, rfl⟩ := List.mem_map.mp h
    exact Or.inl ⟨a, ha, rfl⟩
  · obtain ⟨b, hb, rfl⟩ := List.mem_map.mp h
    rw [List.mem_filter] at hb
    exact Or.inr ⟨b, hb.1, by simpa using hb.2, rfl⟩

/-- When every record of both sides is a non-empty mapping, every built
task produces a result. -/
lemma process_isSome_of_mem (oracle : Record → Record → Except String CompResult)
    {sa sb : List Record} {t : Task}
    (hwa : ∀ r ∈ sa, r ≠ []) (hwb : ∀ r ∈ sb, r ≠ [])
    (ht : t ∈ buildTasks sa sb) :
    (process_comparison_task oracle t).isSome := by
  rcases mem_buildTasks ht with ⟨a, ha, rfl⟩ | ⟨b, hb, _, rfl⟩
  · rcases matchTaskForA_eq sb a with ⟨b, _, hbe, heq⟩ | heq <;> rw [heq]
    · cases horacle : oracle a b with
      | ok r =>
          rw [process_matched_eq_ok oracle a b r (hwa a ha)
                (ne_nil_of_isEmpty_false hbe) horacle]
          rfl
      | error e =>
          rw [process_matched_eq_fallback oracle a b e (hwa a ha)
                (ne_nil_of_isEmpty_false hbe) horacle]
          rfl
    · rw [process_missing_eq oracle a (hwa a ha)]
      rfl
  · rw [process_new_eq oracle b (hwb b hb)]
    rfl

/-- A key occurs among the task keys exactly when it occurs on either
side. -/
lemma mem_taskKey_iff (sa sb : List Record) (k : String) :
    k ∈ (buildTasks sa sb).map taskKey ↔
      (k ∈ sa.map sysName ∨ k ∈ sb.map sysName) := by
  rw [buildTasks_map_taskKey, List.mem_append, List.mem_filter]
  constructor
  · rintro (h | ⟨h, _⟩)
    · exact Or.inl h
    · exact Or.inr h
  · rintro (h | h)
    · exact Or.inl h
    · by_cases hm : mapMem sa k = true
      · exact Or.inl ((mapMem_iff sa k).mp hm)
      · rw [Bool.not_eq_true] at hm
        exact Or.inr ⟨h, by simp [hm]⟩

/-- With duplicate-free names on each side, the task keys are
duplicate-free. -/
lemma nodup_taskKeys (sa sb : List Record)
    (ha : (sa.map sysName).Nodup) (hb : (sb.map sysName).Nodup) :
    ((buildTasks sa sb).map taskKey).Nodup := by
  rw [buildTasks_map_taskKey, List.nodup_append]
  refine ⟨ha, hb.filter _, ?_⟩
  intro k hk hk'
  rw [List.mem_filter] at hk'
  have hm : mapMem sa k = true := (mapMem_iff sa k).mpr hk
  simp [hm] at hk'

/-- Evaluation of the engine when both extractions succeed. -/
lemma run_ok (extract : String → String → Except String (List Record))
    (exec : Task → Except String (Option CompResult))
    (ca cb : String) (mw : Nat) (sched : Nat → List Task → List Task)
    {sa sb : List Record}
    (h1 : extract ca "Version A" = Except.ok sa)
    (h2 : extract cb "Version B" = Except.ok sb) :
    run_parallel_analysis extract exec ca cb mw sched =
      Except.ok
        (⟨sa, sb,
          ((sched (phase2_max_workers mw) (buildTasks sa sb)).map exec).filterMap collect_ok⟩,
         ((sched (phase2_max_workers mw) (buildTasks sa sb)).map exec).filterMap collect_err) := by
  simp [run_parallel_analysis, h1, h2, gather_eq]

/-- Under failure-free task execution the collected results are exactly
the processed tasks. -/
lemma filterMap_collect_ok_pure (oracle : Record → Record → Except String CompResult)
    (l : List Task) :
    (l.map (pure_exec oracle)).filterMap collect_ok
      = l.filterMap (process_comparison_task oracle) := by
  rw [List.filterMap_map]
  rfl

/-- Under failure-free task execution no warnings are emitted. -/
lemma filterMap_collect_err_pure (oracle : Record → Record → Except String CompResult)
    (l : List Task) :
    (l.map (pure_exec oracle)).filterMap collect_err = [] := by
  rw [List.filterMap_map]
  exact List.filterMap_eq_nil_iff.mpr fun a _ => rfl

/-- The fallback differences over any field list: one entry per field
whose two values (read with default "N/A") differ, in list order, built
from those values and the fixed per-field analysis text. -/
lemma manual_eq_aux (a b : Record) (l : List String) :
    (l.filterMap fun field =>
        let value_a := rgetD a field "N/A"
        let value_b := rgetD b field "N/A"
        if value_a != value_b then
          some (FieldDiff.mk field value_a value_b (diff_analysis field value_a value_b))
        else
          none)
      = (l.filter fun f => rgetD a f "N/A" != rgetD b f "N/A").map
          fun f => FieldDiff.mk f (rgetD a f "N/A") (rgetD b f "N/A")
                     (diff_analysis f (rgetD a f "N/A") (rgetD b f "N/A")) := by
  induction l with
  | nil => rfl
  | cons f tl ih =>
    cases hcond : rgetD a f "N/A" != rgetD b f "N/A" with
    | false =>
      rw [bne_eq_false_iff_eq] at hcond
      simp [List.filterMap_cons, List.filter_cons, hcond]
      simpa using ih
    | true =>
      rw [bne_iff_ne] at hcond
      simp [List.filterMap_cons, List.filter_cons, hcond]
      simpa using ih

/-- Characterisation of `_manual_field_comparison`: the differences are
the differing fields of `field_order`, in order, with values read with
default "N/A". -/
lemma manual_eq (a b : Record) :
    manual_field_comparison a b
      = (field_order.filter fun f => rgetD a f "N/A" != rgetD b f "N/A").map
          fun f => FieldDiff.mk f (rgetD a f "N/A") (rgetD b f "N/A")
                     (diff_analysis f (rgetD a f "N/A") (rgetD b f "N/A")) := by
  unfold manual_field_comparison
  exact manual_eq_aux a b field_order

/-- Exhaustive characterisation of the results of
`process_comparison_task`: a produced result comes from the matched branch
(service result with overwritten status, or fallback), the `missing_in_b`
branch, or the `new_in_b` branch. -/
lemma process_eq_some_cases (oracle : Record → Record → Except String CompResult)
    (t : Task) (r : CompResult)
    (h : process_comparison_task oracle t = some r) :
    (∃ a b, t.system_a = some a ∧ t.system_b = some b ∧ t.status = "matched" ∧
       ((∃ result, oracle a b = Except.ok result ∧
           r = { result with status := "matched" }) ∨
        (∃ e, oracle a b = Except.error e ∧
           r = CompResult.mk (rgetD a "System Name" "") "matched" (some a) (some b)
                 (manual_field_comparison a b) (fallback_analysis e)))) ∨
    (∃ a, t.system_a = some a ∧ t.status = "missing_in_b" ∧
       r = CompResult.mk (rgetD a "System Name" "") "missing_in_b" (some a) none []
             (missing_analysis (rgetD a "System Name" ""))) ∨
    (∃ b, t.system_b = some b ∧ t.status = "new_in_b" ∧
       r = CompResult.mk (rgetD b "System Name" "") "new_in_b" none (some b) []
             (new_analysis (rgetD b "System Name" ""))) := by
  unfold process_comparison_task at h
  split at h
  case isTrue hg1 =>
    simp only [Bool.and_eq_true, beq_iff_eq] at hg1
    split at h
    · rename_i a b heqa heqb
      refine Or.inl ⟨a, b, heqa, heqb, hg1.1.1, ?_⟩
      split at h
      · rename_i result horacle
        rw [Option.some_inj] at h
        exact Or.inl ⟨result, horacle, h.symm⟩
      · rename_i e horacle
        rw [Option.some_inj] at h
        exact Or.inr ⟨e, horacle, h.symm⟩
    · simp at h
  case isFalse =>
    split at h
    case isTrue hg2 =>
      simp only [Bool.and_eq_true, beq_iff_eq] at hg2
      split at h
      · rename_i a heqa
        rw [Option.some_inj] at h
        exact Or.inr (Or.inl ⟨a, heqa, hg2.1, h.symm⟩)
      · simp at h
    case isFalse =>
      split at h
      case isTrue hg3 =>
        simp only [Bool.and_eq_true, beq_iff_eq] at hg3
        split at h
        · rename_i b heqb
          rw [Option.some_inj] at h
          exact Or.inr (Or.inr ⟨b, heqb, hg3.1, h.symm⟩)
        · simp at h
      case isFalse => simp at h

/-! ### Claim theorems -/

/-- C2 (counterexample): `run_parallel_analysis` does not clamp the worker
count: 50 is passed to the Phase-2 pool as 50, not as the clamped value
10, so "clamps a worker count outside [2,10] to those bounds" fails at
`maxWorkers = 50`. -/
theorem C2_counterexample :
    phase2_max_workers 50 = 50 ∧ clamp_spec 50 = 10 ∧
      phase2_max_workers 50 ≠ clamp_spec 50 :=
  ⟨rfl, rfl, by decide⟩

/-- C2 (amended): the engine passes `max_workers` to the Phase-2 pool
unmodified; the pass-through agrees with the spec's clamp to [2,10]
exactly for the in-range values — the only values the UI slider
(min 2, max 10) can supply — so for those the Phase-2 concurrency bound
never exceeds the configured maximum. -/
theorem C2_amended_workers_passed_through (max_workers : Nat) :
    phase2_max_workers max_workers = clamp_spec max_workers ↔
      2 ≤ max_workers ∧ max_workers ≤ 10 := by
  unfold phase2_max_workers clamp_spec
  omega

/-- C3: the deterministic local fallback emits exactly one
`FieldDifference` per field of the fixed ordered field list whose values
(read with default "N/A") differ, in field-list order, each built from
those values with the fixed per-field analysis text; and on a matched task
whose external comparison fails the engine always produces a result whose
`system_analysis` is the fixed diagnostic string embedding the original
error.  (The fallback is a total Lean function: it never fails on
well-formed record mappings.) -/
theorem C3_deterministic_fallback
    (system_a system_b : Record)
    (oracle : Record → Record → Except String CompResult) (e : String)
    (ha : system_a ≠ []) (hb : system_b ≠ [])
    (ho : oracle system_a system_b = Except.error e) :
    manual_field_comparison system_a system_b
      = (field_order.filter fun f =>
           rgetD system_a f "N/A" != rgetD system_b f "N/A").map
          (fun f => FieldDiff.mk f (rgetD system_a f "N/A") (rgetD system_b f "N/A")
                      (diff_analysis f (rgetD system_a f "N/A") (rgetD system_b f "N/A"))) ∧
    process_comparison_task oracle ⟨"matched", some system_a, some system_b⟩
      = some (CompResult.mk (rgetD system_a "System Name" "") "matched"
          (some system_a) (some system_b)
          (manual_field_comparison system_a system_b) (fallback_analysis e)) :=
  ⟨manual_eq system_a system_b,
   process_matched_eq_fallback oracle system_a system_b e ha hb ho⟩

/-- C3 witness: the fallback on two concrete records differing in
"Amount". -/
theorem C3_witness :
    manual_field_comparison [("System Name", "sys1"), ("Amount", "10")]
        [("System Name", "sys1"), ("Amount", "20")]
      = (field_order.filter fun f =>
           rgetD [("System Name", "sys1"), ("Amount", "10")] f "N/A"
             != rgetD [("System Name", "sys1"), ("Amount", "20")] f "N/A").map
          (fun f => FieldDiff.mk f
            (rgetD [("System Name", "sys1"), ("Amount", "10")] f "N/A")
            (rgetD [("System Name", "sys1"), ("Amount", "20")] f "N/A")
            (diff_analysis f
              (rgetD [("System Name", "sys1"), ("Amount", "10")] f "N/A")
              (rgetD [("System Name", "sys1"), ("Amount", "20")] f "N/A"))) ∧
    process_comparison_task (fun _ _ => Except.error "empty response")
        ⟨"matched", some [("System Name", "sys1"), ("Amount", "10")],
         some [("System Name", "sys1"), ("Amount", "20")]⟩
      = some (CompResult.mk "sys1" "matched"
          (some [("System Name", "sys1"), ("Amount", "10")])
          (some [("System Name", "sys1"), ("Amount", "20")])
          (manual_field_comparison [("System Name", "sys1"), ("Amount", "10")]
            [("System Name", "sys1"), ("Amount", "20")])
          (fallback_analysis "empty response")) :=
  C3_deterministic_fallback
    [("System Name", "sys1"), ("Amount", "10")]
    [("System Name", "sys1"), ("Amount", "20")]
    (fun _ _ => Except.error "empty response") "empty response"
    (by decide) (by decide) rfl

/-- C5: when either Phase-1 extraction fails, the whole run fails with
that error (no partial report), and the outcome does not depend on the
Phase-2 task execution at all — no Phase-2 work is observable. -/
theorem C5_phase1_failure_aborts_run
    (extract : String → String → Except String (List Record))
    (exec exec' : Task → Except String (Option CompResult))
    (ca cb : String) (mw : Nat) (sched : Nat → List Task → List Task) (e : String)
    (h : extract ca "Version A" = Except.error e ∨
         (∃ sa, extract ca "Version A" = Except.ok sa ∧
                extract cb "Version B" = Except.error e)) :
    run_parallel_analysis extract exec ca cb mw sched = Except.error e ∧
    run_parallel_analysis extract exec ca cb mw sched
      = run_parallel_analysis extract exec' ca cb mw sched := by
  rcases h with h | ⟨sa, h1, h2⟩
  · exact ⟨by simp [run_parallel_analysis, h], by simp [run_parallel_analysis, h]⟩
  · exact ⟨by simp [run_parallel_analysis, h1, h2],
           by simp [run_parallel_analysis, h1, h2]⟩

/-- C5 witness: a concrete run whose extraction of document A fails. -/
theorem C5_witness :
    run_parallel_analysis (fun _ _ => Except.error "Received empty response")
        (pure_exec fun _ _ => Except.error "x") "A" "B" 5 (fun _ l => l)
      = Except.error "Received empty response" ∧
    run_parallel_analysis (fun _ _ => Except.error "Received empty response")
        (pure_exec fun _ _ => Except.error "x") "A" "B" 5 (fun _ l => l)
      = run_parallel_analysis (fun _ _ => Except.error "Received empty response")
          (fun _ => Except.error "task crash") "A" "B" 5 (fun _ l => l) :=
  C5_phase1_failure_aborts_run (fun _ _ => Except.error "Received empty response")
    (pure_exec fun _ _ => Except.error "x") (fun _ => Except.error "task crash")
    "A" "B" 5 (fun _ l => l) "Received empty response" (Or.inl rfl)

/-- C6: on a matched task whose external comparison fails, the engine
substitutes the deterministic fallback result — status "matched", the
diagnostic analysis text embedding the original error — and once Phase 1
has succeeded the run still completes with a report (the failure is never
surfaced as a failure of the run). -/
theorem C6_comparison_failure_recovered_locally
    (oracle : Record → Record → Except String CompResult)
    (system_a system_b : Record) (e : String)
    (extract : String → String → Except String (List Record))
    (ca cb : String) (mw : Nat) (sched : Nat → List Task → List Task)
    (sa sb : List Record)
    (ho : oracle system_a system_b = Except.error e)
    (ha : system_a ≠ []) (hb : system_b ≠ [])
    (h1 : extract ca "Version A" = Except.ok sa)
    (h2 : extract cb "Version B" = Except.ok sb) :
    (∃ r, process_comparison_task oracle
        ⟨"matched", some system_a, some system_b⟩ = some r ∧
       r.status = "matched" ∧
       r.system_analysis = fallback_analysis e ∧
       r.field_differences = manual_field_comparison system_a system_b) ∧
    (∃ rep, run_parallel_analysis extract (pure_exec oracle) ca cb mw sched
       = Except.ok rep) :=
  ⟨⟨_, process_matched_eq_fallback oracle system_a system_b e ha hb ho,
      rfl, rfl, rfl⟩,
   ⟨_, run_ok extract (pure_exec oracle) ca cb mw sched h1 h2⟩⟩

/-- C6 witness: a concrete matched pair whose comparison call fails. -/
theorem C6_witness :
    (∃ r, process_comparison_task (fun _ _ => Except.error "empty response")
        ⟨"matched", some [("System Name", "sys1"), ("Amount", "10")],
         some [("System Name", "sys1"), ("Amount", "20")]⟩ = some r ∧
       r.status = "matched" ∧
       r.system_analysis = fallback_analysis "empty response" ∧
       r.field_differences
         = manual_field_comparison [("System Name", "sys1"), ("Amount", "10")]
             [("System Name", "sys1"), ("Amount", "20")]) ∧
    (∃ rep, run_parallel_analysis
        (fun c _ => if c = "A"
          then Except.ok [[("System Name", "sys1"), ("Amount", "10")]]
          else Except.ok [[("System Name", "sys1"), ("Amount", "20")]])
        (pure_exec fun _ _ => Except.error "empty response")
        "A" "B" 5 (fun _ l => l)
       = Except.ok rep) :=
  C6_comparison_failure_recovered_locally
    (fun _ _ => Except.error "empty response")
    [("System Name", "sys1"), ("Amount", "10")]
    [("System Name", "sys1"), ("Amount", "20")]
    "empty response"
    (fun c _ => if c = "A"
      then Except.ok [[("System Name", "sys1"), ("Amount", "10")]]
      else Except.ok [[("System Name", "sys1"), ("Amount", "20")]])
    "A" "B" 5 (fun _ l => l) _ _ rfl (by decide) (by decide) rfl rfl

/-- C7: once both extractions succeed, the run always completes with a
report: every per-task outcome is consumed by the drain loop, a task that
raises contributes exactly one non-fatal warning and is dropped from
`systems_comparison`, and a task that returns a result contributes exactly
that result. -/
theorem C7_per_task_failures_contained
    (extract : String → String → Except String (List Record))
    (exec : Task → Except String (Option CompResult))
    (ca cb : String) (mw : Nat) (sched : Nat → List Task → List Task)
    (sa sb : List Record)
    (h1 : extract ca "Version A" = Except.ok sa)
    (h2 : extract cb "Version B" = Except.ok sb) :
    run_parallel_analysis extract exec ca cb mw sched =
      Except.ok
        (AnalysisReport.mk sa sb
          (((sched (phase2_max_workers mw) (buildTasks sa sb)).map exec).filterMap
            collect_ok),
         ((sched (phase2_max_workers mw) (buildTasks sa sb)).map exec).filterMap
           collect_err) :=
  run_ok extract exec ca cb mw sched h1 h2

/-- C7 witness: a concrete run whose single task raises — the run still
completes, the task is dropped and one warning is emitted. -/
theorem C7_witness :
    run_parallel_analysis
        (fun c _ => if c = "A"
          then Except.ok [[("System Name", "x")]]
          else Except.ok [])
        (fun _ => Except.error "task failure") "A" "B" 3 (fun _ l => l) =
      Except.ok (AnalysisReport.mk [[("System Name", "x")]] [] [],
                 [warn_msg "task failure"]) :=
  C7_per_task_failures_contained
    (fun c _ => if c = "A"
      then Except.ok [[("System Name", "x")]]
      else Except.ok [])
    (fun _ => Except.error "task failure") "A" "B" 3 (fun _ l => l)
    [[("System Name", "x")]] [] rfl rfl

/-- C9: if the two records agree on every field of the configured field
list (read with default "N/A"), the fallback comparison yields no
differences. -/
theorem C9_identical_records_empty_diff
    (system_a system_b : Record)
    (h : ∀ f ∈ field_order, rgetD system_a f "N/A" = rgetD system_b f "N/A") :
    manual_field_comparison system_a system_b = [] := by
  rw [manual_eq]
  have hnil : (field_order.filter fun f =>
      rgetD system_a f "N/A" != rgetD system_b f "N/A") = [] := by
    rw [List.filter_eq_nil_iff]
    intro f hf
    simp [h f hf]
  rw [hnil]
  rfl

/-- C9 witness: two concrete records with equal values on every
comparable field. -/
theorem C9_witness :
    manual_field_comparison [("System Name", "x"), ("Amount", "10")]
      [("System Name", "y"), ("Amount", "10")] = [] :=
  C9_identical_records_empty_diff
    [("System Name", "x"), ("Amount", "10")]
    [("System Name", "y"), ("Amount", "10")] (by decide)

/-- C1 (counterexample): a duplicated key within RecordSet A yields two
`ComparisonResult`s, not one — the task loop iterates the list, not the
deduplicated map, so "exactly one entry per distinct key ... including
when a key occurs more than once within one RecordSet" fails. -/
theorem C1_counterexample :
    ∃ rep w,
      run_parallel_analysis
        (fun c _ => if c = "A"
          then Except.ok [[("System Name", "x"), ("Amount", "1")],
                          [("System Name", "x"), ("Amount", "2")]]
          else Except.ok [])
        (pure_exec fun _ _ => Except.error "e")
        "A" "B" 5 (fun _ l => l)
      = Except.ok (rep, w) ∧
      rep.systems_comparison.length = 2 ∧
      (([[("System Name", "x"), ("Amount", "1")],
         [("System Name", "x"), ("Amount", "2")]].map sysName
        ++ ([] : List Record).map sysName).dedup).length = 1 ∧
      rep.systems_comparison.length
        ≠ (([[("System Name", "x"), ("Amount", "1")],
            [("System Name", "x"), ("Amount", "2")]].map sysName
           ++ ([] : List Record).map sysName).dedup).length := by
  refine ⟨AnalysisReport.mk
      [[("System Name", "x"), ("Amount", "1")], [("System Name", "x"), ("Amount", "2")]]
      []
      [CompResult.mk "x" "missing_in_b"
         (some [("System Name", "x"), ("Amount", "1")]) none [] (missing_analysis "x"),
       CompResult.mk "x" "missing_in_b"
         (some [("System Name", "x"), ("Amount", "2")]) none [] (missing_analysis "x")],
    [], ?_, ?_, ?_, ?_⟩
  · rfl
  · rfl
  · rfl
  · decide

/-- C1 (amended): when every record is a non-empty mapping and match keys
are distinct within each RecordSet, the engine builds exactly one task per
distinct key of the union (the task list keyed by match key is a
permutation of the deduplicated union of the two key lists) and every task
yields exactly one result; when a key repeats within one side, one result
is produced per occurrence (the side maps are last-write-wins for lookup
only — tasks are built per list element, so results are not
deduplicated). -/
theorem C1_amended_one_result_per_distinct_key
    (oracle : Record → Record → Except String CompResult) (sa sb : List Record)
    (ha : (sa.map sysName).Nodup) (hb : (sb.map sysName).Nodup)
    (hwa : ∀ r ∈ sa, r ≠ []) (hwb : ∀ r ∈ sb, r ≠ []) :
    List.Perm ((buildTasks sa sb).map taskKey)
      ((sa.map sysName ++ sb.map sysName).dedup) ∧
    ((buildTasks sa sb).filterMap (process_comparison_task oracle)).length
      = (buildTasks sa sb).length := by
  constructor
  · rw [List.perm_ext_iff_of_nodup (nodup_taskKeys sa sb ha hb) (List.nodup_dedup _)]
    intro k
    rw [mem_taskKey_iff, List.mem_dedup, List.mem_append]
  · exact List.filterMap_length_eq_length.mpr
      fun t ht => process_isSome_of_mem oracle hwa hwb ht

/-- C1 witness: one distinct key on each side. -/
theorem C1_witness :
    List.Perm ((buildTasks [[("System Name", "x")]] [[("System Name", "y")]]).map taskKey)
      (([[("System Name", "x")]].map sysName
        ++ [[("System Name", "y")]].map sysName).dedup) ∧
    ((buildTasks [[("System Name", "x")]] [[("System Name", "y")]]).filterMap
        (process_comparison_task fun _ _ => Except.error "e")).length
      = (buildTasks [[("System Name", "x")]] [[("System Name", "y")]]).length :=
  C1_amended_one_result_per_distinct_key (fun _ _ => Except.error "e")
    [[("System Name", "x")]] [[("System Name", "y")]]
    (by decide) (by decide) (by decide) (by decide)

/-- C8: for fixed extraction and comparison outcomes, the collected
results are — up to arrival order — independent of both the worker count
and the completion order the pool happens to produce: any two runs
differing only in `max_workers` and schedule give permutation-equal
`systems_comparison` and identical extraction payloads. -/
theorem C8_max_workers_independence
    (extract : String → String → Except String (List Record))
    (oracle : Record → Record → Except String CompResult)
    (ca cb : String) (mw₁ mw₂ : Nat)
    (sched₁ sched₂ : Nat → List Task → List Task)
    (sa sb : List Record)
    (hs₁ : ∀ n l, List.Perm (sched₁ n l) l)
    (hs₂ : ∀ n l, List.Perm (sched₂ n l) l)
    (h1 : extract ca "Version A" = Except.ok sa)
    (h2 : extract cb "Version B" = Except.ok sb) :
    ∃ rep₁ w₁ rep₂ w₂,
      run_parallel_analysis extract (pure_exec oracle) ca cb mw₁ sched₁
        = Except.ok (rep₁, w₁) ∧
      run_parallel_analysis extract (pure_exec oracle) ca cb mw₂ sched₂
        = Except.ok (rep₂, w₂) ∧
      List.Perm rep₁.systems_comparison rep₂.systems_comparison ∧
      rep₁.systems_config_a = rep₂.systems_config_a ∧
      rep₁.systems_config_b = rep₂.systems_config_b ∧
      w₁ = [] ∧ w₂ = [] := by
  refine ⟨_, _, _, _,
    run_ok extract (pure_exec oracle) ca cb mw₁ sched₁ h1 h2,
    run_ok extract (pure_exec oracle) ca cb mw₂ sched₂ h1 h2,
    ?_, rfl, rfl, ?_, ?_⟩
  · show List.Perm
      (((sched₁ (phase2_max_workers mw₁) (buildTasks sa sb)).map
          (pure_exec oracle)).filterMap collect_ok)
      (((sched₂ (phase2_max_workers mw₂) (buildTasks sa sb)).map
          (pure_exec oracle)).filterMap collect_ok)
    rw [filterMap_collect_ok_pure, filterMap_collect_ok_pure]
    exact ((hs₁ _ _).filterMap _).trans ((hs₂ _ _).filterMap _).symm
  · exact filterMap_collect_err_pure oracle _
  · exact filterMap_collect_err_pure oracle _

/-- C8 witness: the same inputs under worker counts 2 and 9 and two
different completion orders. -/
theorem C8_witness :
    ∃ rep₁ w₁ rep₂ w₂,
      run_parallel_analysis
          (fun c _ => if c = "A"
            then Except.ok [[("System Name", "x")]]
            else Except.ok [[("System Name", "y")]])
          (pure_exec fun _ _ => Except.error "e") "A" "B" 2 (fun _ l => l)
        = Except.ok (rep₁, w₁) ∧
      run_parallel_analysis
          (fun c _ => if c = "A"
            then Except.ok [[("System Name", "x")]]
            else Except.ok [[("System Name", "y")]])
          (pure_exec fun _ _ => Except.error "e") "A" "B" 9 (fun _ l => l.reverse)
        = Except.ok (rep₂, w₂) ∧
      List.Perm rep₁.systems_comparison rep₂.systems_comparison ∧
      rep₁.systems_config_a = rep₂.systems_config_a ∧
      rep₁.systems_config_b = rep₂.systems_config_b ∧
      w₁ = [] ∧ w₂ = [] :=
  C8_max_workers_independence
    (fun c _ => if c = "A"
      then Except.ok [[("System Name", "x")]]
      else Except.ok [[("System Name", "y")]])
    (fun _ _ => Except.error "e") "A" "B" 2 9
    (fun _ l => l) (fun _ l => l.reverse)
    [[("System Name", "x")]] [[("System Name", "y")]]
    (fun _ l => List.Perm.refl l) (fun _ l => List.reverse_perm l) rfl rfl

/-- C10: a Phase-2 task whose tag and payload do not satisfy any of the
three guards (for example a matched task whose record is the empty, falsy
mapping) makes `process_comparison_task` return no result; the drain loop
drops a `None` silently, and warnings arise exactly from outcomes that
raise — in particular failure-free execution emits no warning at all. -/
theorem C10_malformed_tasks_silently_dropped
    (oracle : Record → Record → Except String CompResult) (t : Task) (b : Record)
    (outcomes : List (Except String (Option CompResult))) :
    (task_handled t = false → process_comparison_task oracle t = none) ∧
    task_handled ⟨"matched", some ([] : Record), some b⟩ = false ∧
    (gather outcomes).2 = outcomes.filterMap collect_err ∧
    (∀ l : List Task, (gather (l.map (pure_exec oracle))).2 = []) := by
  refine ⟨?_, ?_, ?_, ?_⟩
  · intro hfail
    unfold task_handled at hfail
    simp only [Bool.or_eq_false_iff] at hfail
    obtain ⟨⟨hc1, hc2⟩, hc3⟩ := hfail
    simp [process_comparison_task, hc1, hc2, hc3]
  · simp [task_handled, truthy]
  · rw [gather_eq]
  · intro l
    rw [gather_eq]
    exact filterMap_collect_err_pure oracle l

/-- C4 (counterexample): a matched result returned by a successful
external comparison carries whatever `config_a` / `config_b` the service
supplied — here null — so "status=matched implies config_a and config_b
are both non-null" fails for results produced by the success path. -/
theorem C4_counterexample :
    ∃ r, process_comparison_task
        (fun _ _ => Except.ok (CompResult.mk "x" "matched" none none [] "svc"))
        ⟨"matched", some [("System Name", "x")], some [("System Name", "x")]⟩
      = some r ∧
      r.status = "matched" ∧ r.config_a = none ∧ r.config_b = none :=
  ⟨CompResult.mk "x" "matched" none none [] "svc", rfl, rfl, rfl, rfl⟩

/-- C4 (amended): every result the engine produces satisfies
`status=only_in_first ⇒ config_b=null ∧ config_a≠null`,
`status=only_in_second ⇒ config_a=null ∧ config_b≠null`, and `differences`
empty unless status=matched; `status=matched ⇒ both configs non-null`
holds for fallback-produced matched results, while a matched result from a
successful external comparison carries the service's configs, which may be
null. -/
theorem C4_amended_result_invariants
    (oracle : Record → Record → Except String CompResult) (t : Task) (r : CompResult)
    (h : process_comparison_task oracle t = some r) :
    (r.status = "missing_in_b" → r.config_b = none ∧ r.config_a ≠ none) ∧
    (r.status = "new_in_b" → r.config_a = none ∧ r.config_b ≠ none) ∧
    (r.status ≠ "matched" → r.field_differences = []) ∧
    (∀ a b e, t = ⟨"matched", some a, some b⟩ → oracle a b = Except.error e →
       r.config_a = some a ∧ r.config_b = some b) := by
  rcases process_eq_some_cases oracle t r h with
    ⟨a, b, hta, htb, hts, hor⟩ | ⟨a, hta, hts, hr⟩ | ⟨b, htb, hts, hr⟩
  · have hst : r.status = "matched" := by
      rcases hor with ⟨result, _, rfl⟩ | ⟨e, _, rfl⟩ <;> rfl
    refine ⟨?_, ?_, ?_, ?_⟩
    · intro hs
      rw [hst] at hs
      exact absurd hs (by decide)
    · intro hs
      rw [hst] at hs
      exact absurd hs (by decide)
    · intro hs
      exact absurd hst hs
    · rintro a' b' e' rfl horacle
      rw [Option.some_inj] at hta htb
      subst hta
      subst htb
      rcases hor with ⟨result, horacle2, rfl⟩ | ⟨e2, horacle2, rfl⟩
      · rw [horacle] at horacle2
        exact absurd horacle2 (by simp)
      · exact ⟨rfl, rfl⟩
  · subst hr
    refine ⟨fun _ => ⟨rfl, by simp⟩, ?_, fun _ => rfl, ?_⟩
    · intro hs
      simp at hs
    · rintro a' b' e' rfl horacle
      simp at hts
  · subst hr
    refine ⟨?_, fun _ => ⟨rfl, by simp⟩, fun _ => rfl, ?_⟩
    · intro hs
      simp at hs
    · rintro a' b' e' rfl horacle
      simp at hts

/-- C4 witness: the invariants instantiated on a concrete `missing_in_b`
result. -/
theorem C4_witness :
    ((CompResult.mk "x" "missing_in_b" (some [("System Name", "x")]) none []
        (missing_analysis "x")).status = "missing_in_b" →
      (CompResult.mk "x" "missing_in_b" (some [("System Name", "x")]) none []
        (missing_analysis "x")).config_b = none ∧
      (CompResult.mk "x" "missing_in_b" (some [("System Name", "x")]) none []
        (missing_analysis "x")).config_a ≠ none) ∧
    ((CompResult.mk "x" "missing_in_b" (some [("System Name", "x")]) none []
        (missing_analysis "x")).status = "new_in_b" →
      (CompResult.mk "x" "missing_in_b" (some [("System Name", "x")]) none []
        (missing_analysis "x")).config_a = none ∧
      (CompResult.mk "x" "missing_in_b" (some [("System Name", "x")]) none []
        (missing_analysis "x")).config_b ≠ none) ∧
    ((CompResult.mk "x" "missing_in_b" (some [("System Name", "x")]) none []
        (missing_analysis "x")).status ≠ "matched" →
      (CompResult.mk "x" "missing_in_b" (some [("System Name", "x")]) none []
        (missing_analysis "x")).field_differences = []) ∧
    (∀ a b e,
      (⟨"missing_in_b", some [("System Name", "x")], none⟩ : Task)
        = ⟨"matched", some a, some b⟩ →
      (fun _ _ => Except.error "e" : Record → Record → Except String CompResult) a b
        = Except.error e →
      (CompResult.mk "x" "missing_in_b" (some [("System Name", "x")]) none []
        (missing_analysis "x")).config_a = some a ∧
      (CompResult.mk "x" "missing_in_b" (some [("System Name", "x")]) none []
        (missing_analysis "x")).config_b = some b) :=
  C4_amended_result_invariants (fun _ _ => Except.error "e")
    ⟨"missing_in_b", some [("System Name", "x")], none⟩
    (CompResult.mk "x" "missing_in_b" (some [("System Name", "x")]) none []
      (missing_analysis "x"))
    (by decide)

/-- C10 witness: a matched task carrying an empty record is dropped
without a result. -/
theorem C10_witness :
    process_comparison_task (fun _ _ => Except.error "e")
      ⟨"matched", some ([] : Record), some [("System Name", "x")]⟩ = none :=
  (C10_malformed_tasks_silently_dropped (fun _ _ => Except.error "e")
    ⟨"matched", some ([] : Record), some [("System Name", "x")]⟩
    [("System Name", "x")] []).1 (by decide)

end KYC
